import Mathlib

set_option maxHeartbeats 1000000
set_option maxRecDepth 10000

/-!
Verification development for the beartype classification-and-dispatch engine
(`beartype/_decor/decorcore.py`) and the dynamic type factory
(`beartype/_util/cls/utilclsmake.py`).

The Python runtime objects handled by the engine are shallowly embedded:

* A non-class object (an "atom") is summarized by the exact boolean queries the
  engine performs on it: whether its runtime type is one of the four builtin
  method-descriptor types (`type(obj) in MethodDecoratorBuiltinTypes`), whether
  it is callable (`callable(obj)`), whether it is a pure-Python function
  (`is_func_python(obj)`), whether it is a `@contextlib.contextmanager`-based
  isomorphic decorator closure (`is_func_contextlib_contextmanager(obj)`),
  whether its type is in `TYPES_BEARTYPEABLE`, plus its `repr` string (used in
  error messages).
* A class is its identity (a numeric id standing for the Python object
  identity) together with its direct member table `cls.__dict__`: an ordered
  list of (name, value, setattr-behavior) entries.  The setattr-behavior field
  models whether `setattr(cls, name, ...)` succeeds (`none`) or raises a
  `TypeError` carrying the given message (`some msg`) — in CPython this is a
  property of the (class, attribute-name) slot (e.g. slots inherited from
  immutable builtin base types).

Exceptions are modelled with `Except`; because CPython mutates classes in
place while an exception propagates, the error channel carries the state of
the target as it stands at the moment the exception escapes.  Warning emission
(`warnings.warn`) is modelled by an accumulated list of (category, message)
pairs.  The external collaborator wrap operations
(`beartype_descriptor_decorator_builtin`, `beartype_func`,
`beartype_func_contextlib_contextmanager`, `beartype_pseudofunc`), which live
outside the two source files, are abstract function parameters.
-/

/-- Summary of a non-class Python object: the boolean classification queries
performed by `_beartype_object_fatal`, the `TYPES_BEARTYPEABLE` membership test
performed by `_beartype_type`, and the object's `repr` string. -/
structure Atom where
  isDescriptorType : Bool
  isCallable : Bool
  isFuncPython : Bool
  isContextManagerClosure : Bool
  beartypeable : Bool
  reprStr : String
deriving DecidableEq, Repr

/-- A Python object as seen by the engine: either a class, with its identity
and its direct member table `cls.__dict__` (each entry is a name, a value, and
the behavior of `setattr(cls, name, _)`: `none` when setting succeeds,
`some msg` when it raises a `TypeError` with message `msg`), or an atom. -/
inductive Obj where
  | cls : Nat → List (String × Obj × Option String) → Obj
  | atom : Atom → Obj

/-- One entry of a class's direct member table. -/
abbrev Mem := String × Obj × Option String

/-- The shape tags assigned by the object classifier (spec section 4.1). -/
inductive Shape where
  | classShape
  | builtinMethodDescriptor
  | uncallable
  | pseudoCallable
  | generatorManagerClosure
  | plainFunction
deriving DecidableEq, Repr

/-- A raised Python exception: whether it is beartype-specific (an instance of
`BeartypeException`) and its message. -/
structure Err where
  isBeartype : Bool
  msg : String
deriving DecidableEq, Repr

/-- The beartype configuration, reduced to the field the failure-policy
wrapper reads: `warning_cls_on_decorator_exception` is `none` under fail-fast
and `some c` under fail-soft, where `c` identifies the warning category.
Warning categories are abstracted as numerals; the engine's assertion that the
category is a `Warning` subclass is modelled by every numeral being a valid
category. -/
structure BeartypeConf where
  warning_cls_on_decorator_exception : Option Nat
deriving DecidableEq, Repr

/-- Warnings emitted so far: (category, message) pairs in emission order. -/
abbrev Warnings := List (Nat × String)

/-- Result of one engine operation: the outcome (a replacement object, or a
propagating exception paired with the state of the target as it stands when
the exception escapes) together with the warnings emitted along the way. -/
abbrev DecorResult := Except (Err × Obj) Obj × Warnings

/-- The external collaborator wrap operations consumed by the dispatcher, plus
the host-runtime version flag `IS_PYTHON_AT_LEAST_3_10` read by the class
walker's immutable-member detection. -/
structure Collab where
  wrapDescriptor : Obj → BeartypeConf → Option (List Obj) → Except Err Obj
  wrapPseudofunc : Obj → BeartypeConf → Option (List Obj) → Except Err Obj
  wrapContextmanager : Obj → BeartypeConf → Option (List Obj) → Except Err Obj
  wrapFunc : Obj → BeartypeConf → Option (List Obj) → Except Err Obj
  isPy310 : Bool

/-- Test `isinstance(obj, type)`. -/
def objIsClass : Obj → Bool
  | Obj.cls _ _ => true
  | Obj.atom _ => false

/-- Test `type(obj) in MethodDecoratorBuiltinTypes`.  A class's type (its
metaclass) is never one of the four builtin method-descriptor types. -/
def objIsDescriptorType : Obj → Bool
  | Obj.cls _ _ => false
  | Obj.atom a => a.isDescriptorType

/-- Test `callable(obj)`.  Classes are always callable. -/
def objIsCallable : Obj → Bool
  | Obj.cls _ _ => true
  | Obj.atom a => a.isCallable

/-- Test `is_func_python(obj)`.  A class is never a pure-Python function. -/
def objIsFuncPython : Obj → Bool
  | Obj.cls _ _ => false
  | Obj.atom a => a.isFuncPython

/-- Test `is_func_contextlib_contextmanager(obj)`. -/
def objIsCtxManagerClosure : Obj → Bool
  | Obj.cls _ _ => false
  | Obj.atom a => a.isContextManagerClosure

/-- The `repr` of an object, as interpolated into error messages. -/
def objRepr : Obj → String
  | Obj.cls i _ => "<class " ++ Nat.repr i ++ ">"
  | Obj.atom a => a.reprStr

/-- Modelled from the spec: the test `isinstance(attr_value, TYPES_BEARTYPEABLE)`
performed by the class walker.  The tuple `TYPES_BEARTYPEABLE` itself
(`beartype/_data/cls/datacls.py`) is outside the two source files; per the
spec, classes are instrumentable shapes, and for a non-class object the
`beartypeable` flag of its atom records whether its type is in the recognized
set. -/
def isBeartypeable : Obj → Bool
  | Obj.cls _ _ => true
  | Obj.atom a => a.beartypeable

/-- The object classifier of spec section 4.1: the precedence chain of tests
performed by `_beartype_object_fatal`, first match wins. -/
def classify (o : Obj) : Shape :=
  if objIsClass o then Shape.classShape
  else if objIsDescriptorType o then Shape.builtinMethodDescriptor
  else if !objIsCallable o then Shape.uncallable
  else if !objIsFuncPython o then Shape.pseudoCallable
  else if objIsCtxManagerClosure o then Shape.generatorManagerClosure
  else Shape.plainFunction

/-- The new enclosing-class stack computed on entry to `_beartype_type`: with
no supplied stack the singleton of the current class, otherwise the supplied
stack with the current class appended (a fresh tuple, the caller's is never
mutated). -/
def cls_stack_push (cls_stack : Option (List Obj)) (o : Obj) : List Obj :=
  match cls_stack with
  | none => [o]
  | some s => s ++ [o]

/-- Model of Python's `str.startswith`: the pattern (second argument) is a
leading segment of the string (first argument). -/
def charsStartWith : List Char → List Char → Bool
  | _, [] => true
  | [], _ :: _ => false
  | c :: cs, p :: ps => (c == p) && charsStartWith cs ps

/-- Model of Python's substring membership `pat in s`: the pattern occurs
contiguously somewhere in the string. -/
def charsContain (s pat : List Char) : Bool :=
  match s with
  | [] => charsStartWith [] pat
  | _ :: rest => charsStartWith s pat || charsContain rest pat

/-- Python's `str.startswith` on strings. -/
def pyStartswith (s p : String) : Bool := charsStartWith s.data p.data

/-- Python's substring test `needle in hay` on strings. -/
def pyIn (needle hay : String) : Bool := charsContain hay.data needle.data

/-- The `TypeError`-message pattern by which `_beartype_type` recognizes a
`setattr` failure on a member inherited from an immutable builtin base type.
Mirrors the source condition, including Python's `and`/`or` precedence:
`(IS_PYTHON_AT_LEAST_3_10 and (msg.startswith(p1) and p2 in msg)) or
msg.startswith(p3)`. -/
def is_typeerror_attr_immutable (isPy310 : Bool) (msg : String) : Bool :=
  (isPy310 &&
    (pyStartswith msg ("cannot set " ++ String.singleton (Char.ofNat 39)) &&
      pyIn (String.singleton (Char.ofNat 39) ++
        " attribute of immutable type ") msg)) ||
  pyStartswith msg ("can" ++ String.singleton (Char.ofNat 39) ++
    "t set attributes of built-in/extension type " ++
    String.singleton (Char.ofNat 39))

/-- Lift a collaborator wrap outcome into the engine's result channel: a
raised collaborator exception leaves the (non-class) target unmutated, so the
error carries the target itself. -/
def liftWrap (o : Obj) : Except Err Obj → Except (Err × Obj) Obj
  | Except.ok w => Except.ok w
  | Except.error e => Except.error (e, o)

/-- Prepend already-emitted warnings to a later result's warning list. -/
def prependWs (ws : Warnings) (r : DecorResult) : DecorResult :=
  (r.1, ws ++ r.2)

/-- The referent of a member binding after recursive instrumentation returned
`r` for the previously bound object `v`, when `setattr` has not (or not
successfully) rebound the slot: CPython instruments classes in place, so when
`v` is a class and `r` is the same class (same identity) the binding now sees
`r`'s state; any other object is replaced, not mutated, so the binding still
sees `v`. -/
def mutatedInPlace (v r : Obj) : Obj :=
  match v, r with
  | Obj.cls i _, Obj.cls j ms2 => if i = j then Obj.cls j ms2 else v
  | _, _ => v

/-- Modelled from the spec: `truncate_str` (`beartype/_util/text/utiltextmunge.py`
is outside the two source files) truncates a message to a bounded length. -/
def truncate_str (text : String) (max_len : Nat) : String :=
  if text.length ≤ max_len then text else text.take max_len

/-- Modelled from the spec: `traceback.format_exc` renders the full failure
trace ending in the exception's message. -/
def format_exc (e : Err) : String :=
  "Traceback (most recent call last):" ++ "\n" ++ e.msg ++ "\n"

/-- Modelled from the spec: `uppercase_str_char_first`
(`beartype/_util/text/utiltextmunge.py` is outside the two source files)
capitalizes the first character of a string. -/
def uppercase_str_char_first (text : String) : String :=
  match text.data with
  | [] => text
  | c :: cs => String.mk (c.toUpper :: cs)

/-- Modelled from the spec: `prefix_beartypeable`
(`beartype/_util/text/utiltextprefix.py` is outside the two source files)
yields a human-readable label identifying the target. -/
def label_beartypeable (o : Obj) : String :=
  match o with
  | Obj.cls i _ => "class " ++ Nat.repr i ++ " "
  | Obj.atom a => "object " ++ a.reprStr ++ " "

/-- Modelled from the spec: `label_object_context`
(`beartype/_util/text/utiltextlabel.py` is outside the two source files)
yields a label for the target's lexical context. -/
def label_object_context (_ : Obj) : String := ""

/-- The warning message constructed by `_beartype_object_nonfatal` for a
caught exception `e` raised while instrumenting the target `o`: a
beartype-specific exception contributes its message truncated to 1024
characters, any other exception contributes its full traceback; newlines are
indented by four spaces; the target's label is prepended and the first
character capitalized. -/
def warning_message_of (e : Err) (o : Obj) : String :=
  uppercase_str_char_first
    (label_beartypeable o ++ label_object_context o ++ ":" ++ "\n" ++
      ((if e.isBeartype then truncate_str e.msg 1024 else format_exc e).replace
        "\n" ("\n" ++ "    ")))

/-- The fail-soft failure boundary of `_beartype_object_nonfatal`: a
successful outcome passes through; a propagating exception is converted into
one warning of the configured category and the target — in the state it stands
in when the exception escapes — is returned. -/
def nonfatal_boundary (conf : BeartypeConf) (r : DecorResult) : DecorResult :=
  match r with
  | (Except.ok w, ws) => (Except.ok w, ws)
  | (Except.error (e, m), ws) =>
      (Except.ok m,
        ws ++ [(conf.warning_cls_on_decorator_exception.getD 0,
                warning_message_of e m)])

/-- The substitution step of the class walker, given the result `r` of
recursively instrumenting the member `(nm, v, se)` of class `i` (with `done`
the members already processed and `rest` those still pending).  A propagating
member exception halts the walk (left), carrying the class state with every
processed member substituted; `setattr` success continues (right) with the
member rebound to the replacement; a `setattr` `TypeError` matching the
immutable-type pattern continues with the member skipped; any other `setattr`
`TypeError` halts the walk with that exception re-raised. -/
def member_substitute (isPy310 : Bool) (i : Nat) (done : List Mem)
    (nm : String) (v : Obj) (se : Option String) (rest : List Mem)
    (r : DecorResult) : Sum DecorResult (Mem × Warnings) :=
  match r with
  | (Except.error (e, vMut), ws) =>
      Sum.inl
        (Except.error (e, Obj.cls i (done ++ (nm, mutatedInPlace v vMut, se) :: rest)),
         ws)
  | (Except.ok w, ws) =>
      match se with
      | none => Sum.inr ((nm, w, none), ws)
      | some msg =>
          if is_typeerror_attr_immutable isPy310 msg then
            Sum.inr ((nm, mutatedInPlace v w, some msg), ws)
          else
            Sum.inl
              (Except.error
                (⟨false, msg⟩,
                 Obj.cls i (done ++ (nm, mutatedInPlace v w, some msg) :: rest)),
               ws)

mutual

/-- Embedding of `_beartype_object_fatal`: classify the target by the source's
precedence chain and dispatch to the matching strategy.  A class is delegated
to `beartype_type`; a builtin method descriptor, pseudo-callable,
contextmanager closure or plain function is delegated to the corresponding
collaborator wrap operation; an uncallable object raises
`BeartypeDecorWrappeeException`. -/
def beartype_object_fatal (collab : Collab) (conf : BeartypeConf) (o : Obj)
    (cls_stack : Option (List Obj)) : DecorResult :=
  match o with
  | Obj.cls i members => beartype_type collab conf i members cls_stack
  | Obj.atom a =>
      if a.isDescriptorType then
        (liftWrap (Obj.atom a) (collab.wrapDescriptor (Obj.atom a) conf cls_stack), [])
      else if !a.isCallable then
        (Except.error
          (⟨true, "Uncallable " ++ a.reprStr ++ " not decoratable by @beartype."⟩,
           Obj.atom a), [])
      else if !a.isFuncPython then
        (liftWrap (Obj.atom a) (collab.wrapPseudofunc (Obj.atom a) conf cls_stack), [])
      else if a.isContextManagerClosure then
        (liftWrap (Obj.atom a) (collab.wrapContextmanager (Obj.atom a) conf cls_stack), [])
      else
        (liftWrap (Obj.atom a) (collab.wrapFunc (Obj.atom a) conf cls_stack), [])
  termination_by (sizeOf o, 0)

/-- Embedding of `_beartype_type`: compute the new enclosing-class stack and
walk the class's direct member table. -/
def beartype_type (collab : Collab) (conf : BeartypeConf) (i : Nat)
    (members : List Mem) (cls_stack : Option (List Obj)) : DecorResult :=
  beartype_type_attrs collab conf i [] members
    (cls_stack_push cls_stack (Obj.cls i members))
  termination_by (sizeOf members, 1)

/-- Embedding of the member loop of `_beartype_type`: `done` is the member
table processed so far (in order), `todo` the remainder.  Each beartypeable
member is recursively instrumented through `beartype_object` (inlined here as
the fail-fast dispatch followed by the fail-soft boundary when configured);
the returned replacement is substituted via `setattr`, whose `TypeError` is
swallowed when it matches the immutable-type pattern and re-raised otherwise.
Non-beartypeable members are left untouched. -/
def beartype_type_attrs (collab : Collab) (conf : BeartypeConf) (i : Nat)
    (done todo : List Mem) (stack2 : List Obj) : DecorResult :=
  match todo with
  | [] => (Except.ok (Obj.cls i done), [])
  | (nm, v, se) :: rest =>
      if isBeartypeable v then
        match member_substitute collab.isPy310 i done nm v se rest
            (if conf.warning_cls_on_decorator_exception.isSome then
              nonfatal_boundary conf
                (beartype_object_fatal collab conf v (some stack2))
             else beartype_object_fatal collab conf v (some stack2)) with
        | Sum.inl r => r
        | Sum.inr c =>
            prependWs c.2
              (beartype_type_attrs collab conf i (done ++ [c.1]) rest stack2)
      else
        beartype_type_attrs collab conf i (done ++ [(nm, v, se)]) rest stack2
  termination_by (sizeOf todo, 0)

end

/-- Embedding of `_beartype_object_nonfatal`: run the fail-fast dispatcher
inside the fail-soft boundary. -/
def beartype_object_nonfatal (collab : Collab) (conf : BeartypeConf) (o : Obj)
    (cls_stack : Option (List Obj)) : DecorResult :=
  nonfatal_boundary conf (beartype_object_fatal collab conf o cls_stack)

/-- Embedding of `beartype_object`, the entry operation: dispatch directly
when no warning category is configured (fail-fast), otherwise through the
fail-soft boundary. -/
def beartype_object (collab : Collab) (conf : BeartypeConf) (o : Obj)
    (cls_stack : Option (List Obj)) : DecorResult :=
  if conf.warning_cls_on_decorator_exception.isNone then
    beartype_object_fatal collab conf o cls_stack
  else
    beartype_object_nonfatal collab conf o cls_stack

/-- The member-level invocation performed by the class walker: the entry
operation applied to a member value with the updated stack. -/
def member_step_result (collab : Collab) (conf : BeartypeConf) (v : Obj)
    (stack2 : List Obj) : DecorResult :=
  if conf.warning_cls_on_decorator_exception.isSome then
    nonfatal_boundary conf (beartype_object_fatal collab conf v (some stack2))
  else beartype_object_fatal collab conf v (some stack2)

/-- The successful value of an outcome, with a fallback. -/
def okValue (r : Except (Err × Obj) Obj) (d : Obj) : Obj :=
  match r with
  | Except.ok w => w
  | Except.error _ => d

/-- The expected post-walk form of a member entry when every instrumentation
and substitution succeeds: a beartypeable member is rebound to the replacement
returned by the dispatcher, any other member is untouched. -/
def member_wrapped (collab : Collab) (conf : BeartypeConf) (stack2 : List Obj)
    (m : Mem) : Mem :=
  if isBeartypeable m.2.1 then
    (m.1, okValue (beartype_object_fatal collab conf m.2.1 (some stack2)).1 m.2.1,
     m.2.2)
  else m

/-- The state of the target after an engine operation: the replacement on
success, the carried mutated-so-far state on a propagating exception. -/
def stateOf (r : DecorResult) : Obj :=
  match r.1 with
  | Except.ok o => o
  | Except.error em => em.2

/-- The names of a member table, in order. -/
def memberNames (ms : List Mem) : List String := ms.map (fun m => m.1)

/-- Relation between a pre-walk member entry and its post-walk counterpart:
the name is preserved, and a non-beartypeable member is entirely untouched. -/
def untouchedOk (m m2 : Mem) : Prop :=
  m2.1 = m.1 ∧ (isBeartypeable m.2.1 = false → m2 = m)

/-- Python object identity: two states of the same object (same class id, or
the very same atom). -/
def sameIdentityB : Obj → Obj → Bool
  | Obj.cls i _, Obj.cls j _ => i == j
  | Obj.atom a, Obj.atom b => a == b
  | _, _ => false

/-- The identity of an object, for observing enclosing-class stacks. -/
def objId : Obj → Nat
  | Obj.cls i _ => i
  | Obj.atom _ => 0

/-- Render an enclosing-class stack as the ids of its classes, in order. -/
def encodeStack : Option (List Obj) → String
  | none => "none"
  | some l => String.join (l.map (fun o => "<" ++ Nat.repr (objId o) ++ ">"))

/-- A plain-function atom whose repr records a probe string. -/
def probeAtom (s : String) : Atom := ⟨false, true, true, false, true, s⟩

/-- Instrumented collaborators whose wrap operations record the
enclosing-class stack they receive into the replacement's repr. -/
def stackProbe : Collab :=
  ⟨fun _ _ s => Except.ok (Obj.atom (probeAtom (encodeStack s))),
   fun _ _ s => Except.ok (Obj.atom (probeAtom (encodeStack s))),
   fun _ _ s => Except.ok (Obj.atom (probeAtom (encodeStack s))),
   fun _ _ s => Except.ok (Obj.atom (probeAtom (encodeStack s))),
   true⟩

/-- A plain pure-Python function atom. -/
def funcAtom : Atom := ⟨false, true, true, false, true, "muh_func"⟩

/-- A second plain pure-Python function atom. -/
def funcAtomB : Atom := ⟨false, true, true, false, true, "muh_func_b"⟩

/-- The replacement wrapper returned by the sample collaborators. -/
def wrappedAtom : Atom := ⟨false, true, true, false, true, "wrapped"⟩

/-- An uncallable non-descriptor object (e.g. a plain data attribute). -/
def uncallableAtom : Atom := ⟨false, false, false, false, false, "muh_data"⟩

/-- Sample collaborators whose wrap operations always succeed, returning
`wrappedAtom`. -/
def collabOk : Collab :=
  ⟨fun _ _ _ => Except.ok (Obj.atom wrappedAtom),
   fun _ _ _ => Except.ok (Obj.atom wrappedAtom),
   fun _ _ _ => Except.ok (Obj.atom wrappedAtom),
   fun _ _ _ => Except.ok (Obj.atom wrappedAtom),
   true⟩

/-- Sample collaborators whose wrap operations always raise a non-beartype
exception. -/
def collabFail : Collab :=
  ⟨fun _ _ _ => Except.error ⟨false, "wrap exploded"⟩,
   fun _ _ _ => Except.error ⟨false, "wrap exploded"⟩,
   fun _ _ _ => Except.error ⟨false, "wrap exploded"⟩,
   fun _ _ _ => Except.error ⟨false, "wrap exploded"⟩,
   true⟩

/-- Test of the first character of a Python identifier (ASCII identifiers;
Python's `str.isidentifier` additionally admits some unicode, which the two
source files never rely on). -/
def isIdentStart (c : Char) : Bool := c.isAlpha || c = '_'

/-- Test of a non-first character of a Python identifier. -/
def isIdentChar (c : Char) : Bool := c.isAlphanum || c = '_'

/-- Identifier test on a character sequence: nonempty, starting with a letter
or underscore, continuing with letters, digits or underscores. -/
def charsIdentifier : List Char → Bool
  | [] => false
  | c :: cs => isIdentStart c && cs.all isIdentChar

/-- The host `str.isidentifier` test read by `make_type`.  A dotted
(qualified) name fails because a dot is not an identifier character. -/
def str_isidentifier (s : String) : Bool :=
  charsIdentifier s.data

/-- The Python `repr` of a string, as interpolated into error messages. -/
def pyRepr (s : String) : String :=
  String.singleton (Char.ofNat 39) ++ s ++ String.singleton (Char.ofNat 39)

/-- A class as synthesized by the dynamic type factory: either the universal
root class `object`, or a synthesized class with its name, base classes,
member scope, optional owning module and optional docstring. -/
inductive PyClass where
  | object : PyClass
  | make (name : String) (bases : List PyClass) (scope : List (String × Nat))
      (moduleName : Option String) (doc : Option String) : PyClass

/-- Modelled from the spec: the host runtime's three-argument `type`
constructor; with no explicit bases the synthesized class inherits only from
the universal root class `object`. -/
def type_new (type_name : String) (type_bases : List PyClass)
    (type_scope : List (String × Nat)) : PyClass :=
  PyClass.make type_name
    (if type_bases.isEmpty then [PyClass.object] else type_bases)
    type_scope none none

/-- Assignment of `cls.__module__`. -/
def setModuleName : PyClass → String → PyClass
  | PyClass.object, _ => PyClass.object
  | PyClass.make n b s _ d, m => PyClass.make n b s (some m) d

/-- Assignment of `cls.__doc__`. -/
def setDocstring : PyClass → String → PyClass
  | PyClass.object, _ => PyClass.object
  | PyClass.make n b s m _, d => PyClass.make n b s m (some d)

/-- Modelled from the spec: `is_identifier`
(`beartype/_util/text/utiltextident.py` is outside the two source files)
accepts possibly-qualified identifiers: every dot-separated component must be
an identifier. -/
def is_identifier (text : String) : Bool :=
  (text.splitOn ".").all str_isidentifier

/-- Embedding of `make_type`: validate the class name, synthesize the class
with the (defaulted) bases and scope, then validate and assign the owning
module and attach the docstring when supplied.  The error channel carries the
supplied exception kind and the formatted message. -/
def make_type (type_name : String) (type_module_name : Option String)
    (type_bases : Option (List PyClass))
    (type_scope : Option (List (String × Nat))) (type_doc : Option String)
    (exception_cls : Nat) : Except (Nat × String) PyClass :=
  if !str_isidentifier type_name then
    Except.error (exception_cls, "Class name " ++ pyRepr type_name ++ " invalid.")
  else
    let cls0 := type_new type_name (type_bases.getD []) (type_scope.getD [])
    match type_module_name with
    | some m =>
        if !is_identifier m then
          Except.error (exception_cls,
            "Class module name " ++ pyRepr m ++ " invalid.")
        else
          match type_doc with
          | some d => Except.ok (setDocstring (setModuleName cls0 m) d)
          | none => Except.ok (setModuleName cls0 m)
    | none =>
        match type_doc with
        | some d => Except.ok (setDocstring cls0 d)
        | none => Except.ok cls0

/-- Fixture: a class with one plain-method member whose substitution succeeds
and a second member whose `setattr` raises a `TypeError` not matching the
immutable-type pattern. -/
def clsCex : Obj :=
  Obj.cls 0 [("m1", Obj.atom funcAtom, none),
             ("m2", Obj.atom funcAtomB, some "boom")]

/-- Fixture: the state of `clsCex` after its walk fails at the second member:
the first member was already substituted in place. -/
def clsCexMut : Obj :=
  Obj.cls 0 [("m1", Obj.atom wrappedAtom, none),
             ("m2", Obj.atom funcAtomB, some "boom")]

/-- Fixture: a member table with one instrumentable method and one
non-instrumentable data member. -/
def clsWitMembers : List Mem :=
  [("m", Obj.atom funcAtom, none), ("d", Obj.atom uncallableAtom, none)]

/-- Fixture: a class over `clsWitMembers`. -/
def clsWit : Obj := Obj.cls 3 clsWitMembers

/-- Fixture: a `TypeError` message matching the Python-3.10-and-later
immutable-type pattern. -/
def immutMsg : String :=
  "cannot set " ++ String.singleton (Char.ofNat 39) ++ "x" ++
  String.singleton (Char.ofNat 39) ++ " attribute of immutable type " ++
  String.singleton (Char.ofNat 39) ++ "y" ++ String.singleton (Char.ofNat 39)

/-- Fixture: an inner class with a leaf method member. -/
def clsB : Obj := Obj.cls 2 [("m", Obj.atom funcAtom, none)]

/-- Fixture: a root class lexically containing `clsB`. -/
def clsA : Obj := Obj.cls 1 [("B", clsB, none)]


theorem liftWrap_error_state (o : Obj) (r : Except Err Obj) (e : Err) (m : Obj)
    (h : liftWrap o r = Except.error (e, m)) : m = o := by
  rcases r with e2 | w
  · simp [liftWrap] at h
    exact h.2.symm
  · simp [liftWrap] at h

theorem member_substitute_inl_shape (p : Bool) (i : Nat) (done : List Mem)
    (nm : String) (v : Obj) (se : Option String) (rest : List Mem)
    (r : DecorResult) (r2 : DecorResult)
    (h : member_substitute p i done nm v se rest r = Sum.inl r2) :
    ∃ e x ws, r2 = (Except.error (e, Obj.cls i (done ++ (nm, x, se) :: rest)), ws) := by
  unfold member_substitute at h
  split at h
  next e vMut ws =>
    simp only [Sum.inl.injEq] at h
    exact ⟨e, mutatedInPlace v vMut, ws, h.symm⟩
  next w ws =>
    rcases se with _ | msg
    · simp at h
    · by_cases hp : is_typeerror_attr_immutable p msg
      · simp [hp] at h
      · simp only [hp, Bool.false_eq_true, if_false, Sum.inl.injEq] at h
        exact ⟨⟨false, msg⟩, mutatedInPlace v w, ws, h.symm⟩

theorem walk_error_carries_cls (collab : Collab) (conf : BeartypeConf) (i : Nat) :
    ∀ todo done stack2 e m,
      (beartype_type_attrs collab conf i done todo stack2).1 = Except.error (e, m) →
      ∃ ms2, m = Obj.cls i ms2 := by
  intro todo
  induction todo with
  | nil =>
    intro done stack2 e m h
    rw [beartype_type_attrs] at h
    simp at h
  | cons hd rest ih =>
    intro done stack2 e m h
    obtain ⟨nm, v, se⟩ := hd
    rw [beartype_type_attrs] at h
    by_cases hb : isBeartypeable v
    · simp only [hb, if_true] at h
      rcases hms : member_substitute collab.isPy310 i done nm v se rest
          (if conf.warning_cls_on_decorator_exception.isSome then
            nonfatal_boundary conf
              (beartype_object_fatal collab conf v (some stack2))
           else beartype_object_fatal collab conf v (some stack2)) with r2 | c
      · rw [hms] at h
        obtain ⟨e2, x, ws2, hr2⟩ := member_substitute_inl_shape _ _ _ _ _ _ _ _ _ hms
        rw [hr2] at h
        simp at h
        exact ⟨_, h.2.symm⟩
      · rw [hms] at h
        simp only [prependWs] at h
        exact ih _ _ _ _ h
    · simp only [hb, Bool.false_eq_true, if_false] at h
      exact ih _ _ _ _ h

theorem fatal_error_state_identity (collab : Collab) (conf : BeartypeConf) (o : Obj)
    (s : Option (List Obj)) (e : Err) (m : Obj)
    (h : (beartype_object_fatal collab conf o s).1 = Except.error (e, m)) :
    sameIdentityB o m = true ∧ (∀ a, o = Obj.atom a → m = o) := by
  obtain (⟨i, ms⟩ | a) := o
  · rw [beartype_object_fatal, beartype_type] at h
    obtain ⟨ms2, rfl⟩ := walk_error_carries_cls collab conf i ms [] _ e m h
    exact ⟨by simp [sameIdentityB], by simp⟩
  · rw [beartype_object_fatal] at h
    have hma : m = Obj.atom a := by
      rcases ha : a.isDescriptorType with _ | _
      · rcases hc : a.isCallable with _ | _
        · simp [ha, hc] at h
          exact h.2.symm
        · rcases hf : a.isFuncPython with _ | _
          · simp [ha, hc, hf] at h
            exact liftWrap_error_state _ _ _ _ h
          · rcases hg : a.isContextManagerClosure with _ | _
            · simp [ha, hc, hf, hg] at h
              exact liftWrap_error_state _ _ _ _ h
            · simp [ha, hc, hf, hg] at h
              exact liftWrap_error_state _ _ _ _ h
      · simp [ha] at h
        exact liftWrap_error_state _ _ _ _ h
    subst hma
    exact ⟨by simp [sameIdentityB], fun _ _ => rfl⟩

/-- Claim C1: the entry operation assigns exactly one shape to every target by
testing the classification rules in the fixed source order — (1) class,
(2) builtin method descriptor, (3) uncallable, (4) pseudo-callable,
(5) generator-based context-manager closure, (6) plain function — dispatching
on the first match.  The class test precedes every callable test, the
descriptor test precedes the generic callable test, the context-manager test
runs only once the target is known to be a pure function, and each shape is
dispatched by `beartype_object_fatal` to the matching strategy. -/
theorem classifier_precedence_and_dispatch (collab : Collab) (conf : BeartypeConf)
    (o : Obj) (s : Option (List Obj)) :
    (objIsClass o = true → classify o = Shape.classShape) ∧
    (objIsClass o = false → objIsDescriptorType o = true →
      classify o = Shape.builtinMethodDescriptor) ∧
    (objIsClass o = false → objIsDescriptorType o = false →
      objIsCallable o = false → classify o = Shape.uncallable) ∧
    (objIsClass o = false → objIsDescriptorType o = false →
      objIsCallable o = true → objIsFuncPython o = false →
      classify o = Shape.pseudoCallable) ∧
    (classify o = Shape.generatorManagerClosure →
      objIsFuncPython o = true ∧ objIsCtxManagerClosure o = true ∧
        objIsCallable o = true ∧ objIsClass o = false) ∧
    (objIsClass o = false → objIsDescriptorType o = false →
      objIsCallable o = true → objIsFuncPython o = true →
      objIsCtxManagerClosure o = false → classify o = Shape.plainFunction) ∧
    (classify o = Shape.classShape →
      ∃ i ms, o = Obj.cls i ms ∧
        beartype_object_fatal collab conf o s =
          beartype_type collab conf i ms s) ∧
    (classify o = Shape.builtinMethodDescriptor →
      beartype_object_fatal collab conf o s =
        (liftWrap o (collab.wrapDescriptor o conf s), [])) ∧
    (classify o = Shape.uncallable →
      beartype_object_fatal collab conf o s =
        (Except.error
          (⟨true, "Uncallable " ++ objRepr o ++ " not decoratable by @beartype."⟩,
           o), [])) ∧
    (classify o = Shape.pseudoCallable →
      beartype_object_fatal collab conf o s =
        (liftWrap o (collab.wrapPseudofunc o conf s), [])) ∧
    (classify o = Shape.generatorManagerClosure →
      beartype_object_fatal collab conf o s =
        (liftWrap o (collab.wrapContextmanager o conf s), [])) ∧
    (classify o = Shape.plainFunction →
      beartype_object_fatal collab conf o s =
        (liftWrap o (collab.wrapFunc o conf s), [])) := by
  obtain (⟨i, ms⟩ | ⟨d, c, f, g, b, r⟩) := o
  · refine ⟨?_, ?_, ?_, ?_, ?_, ?_,
      fun _ => ⟨i, ms, rfl, by simp [beartype_object_fatal]⟩,
      ?_, ?_, ?_, ?_, ?_⟩ <;>
      simp [classify, objIsClass, objIsDescriptorType, objIsCallable,
        objIsFuncPython, objIsCtxManagerClosure]
  · cases d <;> cases c <;> cases f <;> cases g <;>
      simp [classify, objIsClass, objIsDescriptorType, objIsCallable,
        objIsFuncPython, objIsCtxManagerClosure, beartype_object_fatal, objRepr]

/-- Witness for claim C1 at a concrete plain-function atom. -/
theorem classifier_precedence_and_dispatch_witness :
    objIsClass (Obj.atom funcAtom) = false ∧
    classify (Obj.atom funcAtom) = Shape.plainFunction ∧
    beartype_object_fatal collabOk ⟨none⟩ (Obj.atom funcAtom) none =
      (liftWrap (Obj.atom funcAtom)
        (collabOk.wrapFunc (Obj.atom funcAtom) ⟨none⟩ none), []) := by
  refine ⟨by decide, by decide, ?_⟩
  exact (classifier_precedence_and_dispatch collabOk ⟨none⟩
    (Obj.atom funcAtom) none).2.2.2.2.2.2.2.2.2.2.2 (by decide)

/-- Claim C5: a target classified Uncallable (non-class, non-descriptor, not
callable) always fails dispatch with the targeted "not decoratable" error,
independently of the collaborators (no wrapping strategy is invoked and no
substitution is performed); under fail-fast the error propagates to the
caller, while under fail-soft the same rejection becomes one warning and the
original target is returned. -/
theorem uncallable_dispatch (collab collab2 : Collab)
    (a : Atom) (s s2 : Option (List Obj)) (c : Nat)
    (hd : a.isDescriptorType = false) (hc : a.isCallable = false) :
    beartype_object collab ⟨none⟩ (Obj.atom a) s =
      (Except.error
        (⟨true, "Uncallable " ++ a.reprStr ++ " not decoratable by @beartype."⟩,
         Obj.atom a), []) ∧
    beartype_object collab2 ⟨some c⟩ (Obj.atom a) s2 =
      (Except.ok (Obj.atom a),
        [(c, warning_message_of
          ⟨true, "Uncallable " ++ a.reprStr ++ " not decoratable by @beartype."⟩
          (Obj.atom a))]) := by
  constructor
  · simp [beartype_object, beartype_object_fatal, hd, hc]
  · simp [beartype_object, beartype_object_nonfatal, beartype_object_fatal,
      nonfatal_boundary, hd, hc]

/-- Witness for claim C5 at a concrete uncallable data atom. -/
theorem uncallable_dispatch_witness :
    uncallableAtom.isDescriptorType = false ∧ uncallableAtom.isCallable = false ∧
    beartype_object collabOk ⟨none⟩ (Obj.atom uncallableAtom) none =
      (Except.error
        (⟨true, "Uncallable " ++ uncallableAtom.reprStr ++
          " not decoratable by @beartype."⟩, Obj.atom uncallableAtom), []) := by
  refine ⟨by decide, by decide, ?_⟩
  exact (uncallable_dispatch collabOk collabOk uncallableAtom none none 7
    (by decide) (by decide)).1

/-- Claim C8: the entry operation selects the failure policy from the
configuration alone: with no configured warning category it invokes the
fail-fast dispatcher directly, with a category it invokes the dispatcher
inside the fail-soft boundary, and on success both policies return the
dispatcher's result. -/
theorem failure_policy_selection (collab : Collab) (conf : BeartypeConf)
    (o : Obj) (s : Option (List Obj)) :
    (conf.warning_cls_on_decorator_exception = none →
      beartype_object collab conf o s = beartype_object_fatal collab conf o s) ∧
    (∀ c, conf.warning_cls_on_decorator_exception = some c →
      beartype_object collab conf o s =
        nonfatal_boundary conf (beartype_object_fatal collab conf o s)) ∧
    (∀ r ws, beartype_object_fatal collab conf o s = (Except.ok r, ws) →
      beartype_object collab conf o s = (Except.ok r, ws)) := by
  refine ⟨fun h => by simp [beartype_object, h],
          fun c h => by simp [beartype_object, h, beartype_object_nonfatal],
          fun r ws h => ?_⟩
  rcases hconf : conf.warning_cls_on_decorator_exception with _ | c
  · simp [beartype_object, hconf, h]
  · simp [beartype_object, hconf, beartype_object_nonfatal, h, nonfatal_boundary]

/-- Witness for claim C8 at a concrete fail-fast configuration. -/
theorem failure_policy_selection_witness :
    (⟨none⟩ : BeartypeConf).warning_cls_on_decorator_exception = none ∧
    beartype_object collabOk ⟨none⟩ (Obj.atom funcAtom) none =
      beartype_object_fatal collabOk ⟨none⟩ (Obj.atom funcAtom) none := by
  exact ⟨rfl, (failure_policy_selection collabOk ⟨none⟩
    (Obj.atom funcAtom) none).1 rfl⟩

/-- Claim C3: under the fail-soft policy the entry operation always returns a
value rather than propagating an exception; when the dispatcher raises, the
original target (same identity) is returned and exactly one warning of the
configured category is emitted for that failing target, appended after the
warnings of any nested failing members. -/
theorem nonfatal_never_raises (collab : Collab) (conf : BeartypeConf)
    (o : Obj) (s : Option (List Obj)) (c : Nat)
    (hc : conf.warning_cls_on_decorator_exception = some c) :
    (∃ r ws, beartype_object collab conf o s = (Except.ok r, ws)) ∧
    (∀ e m ws, beartype_object_fatal collab conf o s = (Except.error (e, m), ws) →
      beartype_object collab conf o s =
        (Except.ok m, ws ++ [(c, warning_message_of e m)]) ∧
      sameIdentityB o m = true) := by
  have hobj : beartype_object collab conf o s =
      nonfatal_boundary conf (beartype_object_fatal collab conf o s) := by
    simp [beartype_object, hc, beartype_object_nonfatal]
  constructor
  · rcases hf : beartype_object_fatal collab conf o s with ⟨res, ws⟩
    rcases res with em | w
    · rcases em with ⟨e, m⟩
      exact ⟨m, ws ++ [(conf.warning_cls_on_decorator_exception.getD 0,
        warning_message_of e m)], by rw [hobj, hf]; rfl⟩
    · exact ⟨w, ws, by rw [hobj, hf]; rfl⟩
  · intro e m ws hf
    refine ⟨?_, (fatal_error_state_identity collab conf o s e m (by rw [hf])).1⟩
    rw [hobj, hf]
    simp [nonfatal_boundary, hc]

/-- Witness for claim C3 at a concrete uncallable target under fail-soft. -/
theorem nonfatal_never_raises_witness :
    (⟨some 7⟩ : BeartypeConf).warning_cls_on_decorator_exception = some 7 ∧
    (∃ r ws, beartype_object collabOk ⟨some 7⟩ (Obj.atom uncallableAtom) none =
      (Except.ok r, ws)) := by
  exact ⟨rfl, (nonfatal_never_raises collabOk ⟨some 7⟩
    (Obj.atom uncallableAtom) none 7 rfl).1⟩

theorem clsCex_step1 : beartype_object_fatal collabOk ⟨some 7⟩ (Obj.atom funcAtom)
    (some [clsCex]) = (Except.ok (Obj.atom wrappedAtom), []) := by
  simp [beartype_object_fatal, funcAtom, collabOk, liftWrap]

theorem clsCex_step2 : beartype_object_fatal collabOk ⟨some 7⟩ (Obj.atom funcAtomB)
    (some [clsCex]) = (Except.ok (Obj.atom wrappedAtom), []) := by
  simp [beartype_object_fatal, funcAtomB, collabOk, liftWrap]

theorem clsCex_fatal_eval : beartype_object_fatal collabOk ⟨some 7⟩ clsCex none =
    (Except.error (⟨false, "boom"⟩, clsCexMut), []) := by
  have hb1 : isBeartypeable (Obj.atom funcAtom) = true := by decide
  have hb2 : isBeartypeable (Obj.atom funcAtomB) = true := by decide
  have hpat : is_typeerror_attr_immutable true "boom" = false := by decide
  have hmut : mutatedInPlace (Obj.atom funcAtomB) (Obj.atom wrappedAtom) =
      Obj.atom funcAtomB := rfl
  rw [clsCex, beartype_object_fatal, beartype_type]
  rw [show cls_stack_push none (Obj.cls 0
    [("m1", Obj.atom funcAtom, none), ("m2", Obj.atom funcAtomB, some "boom")]) =
    [clsCex] from rfl]
  rw [beartype_type_attrs]
  simp only [hb1, if_true, Option.isSome_some, clsCex_step1, nonfatal_boundary,
    member_substitute, List.nil_append]
  rw [beartype_type_attrs]
  simp only [hb2, if_true, Option.isSome_some, clsCex_step2, nonfatal_boundary,
    member_substitute, hpat, Bool.false_eq_true, if_false, hmut, prependWs]
  simp only [show collabOk.isPy310 = true from rfl, hpat, Bool.false_eq_true,
    if_false, clsCexMut]
  simp

/-- Counterexample to claim C4: under fail-soft, a class whose member walk
fails partway (first member substituted, second member's `setattr` raising a
non-matching `TypeError`) is returned with the first substitution still in
place, so the returned object's state differs from its pre-invocation
state. -/
theorem nonfatal_partial_mutation_counterexample :
    (beartype_object collabOk ⟨some 7⟩ clsCex none).1 = Except.ok clsCexMut ∧
    clsCexMut ≠ clsCex := by
  constructor
  · rw [beartype_object.eq_def]
    simp only [show (⟨some 7⟩ : BeartypeConf).warning_cls_on_decorator_exception.isNone
      = false from rfl, Bool.false_eq_true, if_false]
    unfold beartype_object_nonfatal
    rw [clsCex_fatal_eval]
    rfl
  · simp +decide [clsCex, clsCexMut, funcAtom, wrappedAtom]

/-- Claim C4 (amended): under fail-soft, when instrumentation of a target
fails, the entry operation returns the original target object (same
identity); a non-class target is returned with its state unmodified, but a
class whose member walk failed partway keeps the member substitutions already
applied in place — its state is not restored. -/
theorem nonfatal_returns_original_identity (collab : Collab) (conf : BeartypeConf)
    (o : Obj) (s : Option (List Obj)) (c : Nat) (e : Err) (m : Obj) (ws : Warnings)
    (hc : conf.warning_cls_on_decorator_exception = some c)
    (hf : beartype_object_fatal collab conf o s = (Except.error (e, m), ws)) :
    (beartype_object collab conf o s).1 = Except.ok m ∧
    sameIdentityB o m = true ∧
    (∀ a, o = Obj.atom a → m = o) := by
  have hid := fatal_error_state_identity collab conf o s e m (by rw [hf])
  refine ⟨?_, hid.1, hid.2⟩
  rw [beartype_object.eq_def]
  simp only [hc, Option.isNone_some, Bool.false_eq_true, if_false]
  unfold beartype_object_nonfatal
  rw [hf]
  rfl

/-- Witness for the amended claim C4 at a concrete uncallable atom. -/
theorem nonfatal_returns_original_identity_witness :
    beartype_object_fatal collabOk ⟨some 7⟩ (Obj.atom uncallableAtom) none =
      (Except.error
        (⟨true, "Uncallable " ++ uncallableAtom.reprStr ++
          " not decoratable by @beartype."⟩, Obj.atom uncallableAtom), []) ∧
    (beartype_object collabOk ⟨some 7⟩ (Obj.atom uncallableAtom) none).1 =
      Except.ok (Obj.atom uncallableAtom) := by
  have hf : beartype_object_fatal collabOk ⟨some 7⟩ (Obj.atom uncallableAtom) none =
      (Except.error
        (⟨true, "Uncallable " ++ uncallableAtom.reprStr ++
          " not decoratable by @beartype."⟩, Obj.atom uncallableAtom), []) := by
    simp [beartype_object_fatal, uncallableAtom]
  exact ⟨hf, (nonfatal_returns_original_identity collabOk ⟨some 7⟩
    (Obj.atom uncallableAtom) none 7 _ _ _ rfl hf).1⟩

theorem walk_all_ok (collab : Collab) (conf : BeartypeConf) (i : Nat)
    (stack2 : List Obj)
    (hff : conf.warning_cls_on_decorator_exception = none) :
    ∀ todo done,
      (∀ m ∈ todo, isBeartypeable m.2.1 = true →
        (∃ w ws, beartype_object_fatal collab conf m.2.1 (some stack2) =
          (Except.ok w, ws)) ∧ m.2.2 = none) →
      (beartype_type_attrs collab conf i done todo stack2).1 =
        Except.ok (Obj.cls i (done ++ todo.map (member_wrapped collab conf stack2))) := by
  intro todo
  induction todo with
  | nil =>
    intro done _
    rw [beartype_type_attrs]
    simp
  | cons hd rest ih =>
    intro done hok
    obtain ⟨nm, v, se⟩ := hd
    rw [beartype_type_attrs]
    by_cases hb : isBeartypeable v
    · obtain ⟨⟨w, ws, hw⟩, hse⟩ := hok (nm, v, se) (by simp) hb
      simp only at hse
      subst hse
      have hsome : conf.warning_cls_on_decorator_exception.isSome = false := by
        rw [hff]; rfl
      simp only [hb, if_true, hsome, Bool.false_eq_true, if_false, hw,
        member_substitute, prependWs]
      rw [ih (done ++ [(nm, w, none)]) (fun m hm hbm => hok m (by simp [hm]) hbm)]
      simp [member_wrapped, hb, hw, okValue]
    · simp only [hb, Bool.false_eq_true, if_false]
      rw [ih (done ++ [(nm, v, se)]) (fun m hm hbm => hok m (by simp [hm]) hbm)]
      simp [member_wrapped, hb]

/-- Claim C2: under the fail-fast policy, when every member instrumentation
succeeds and every member substitution succeeds, the entry operation returns
the very same class (same identity, mutated in place) with exactly the
beartypeable member bindings replaced by the dispatchers' returned wrapped
values and every non-instrumentable member untouched; a class with zero
instrumentable members is returned unchanged. -/
theorem class_walk_all_success (collab : Collab) (conf : BeartypeConf)
    (i : Nat) (ms : List Mem)
    (hff : conf.warning_cls_on_decorator_exception = none)
    (hok : ∀ m ∈ ms, isBeartypeable m.2.1 = true →
      (∃ w ws, beartype_object_fatal collab conf m.2.1 (some [Obj.cls i ms]) =
        (Except.ok w, ws)) ∧ m.2.2 = none) :
    (beartype_object collab conf (Obj.cls i ms) none).1 =
      Except.ok (Obj.cls i (ms.map (member_wrapped collab conf [Obj.cls i ms]))) ∧
    ((∀ m ∈ ms, isBeartypeable m.2.1 = false) →
      (beartype_object collab conf (Obj.cls i ms) none).1 =
        Except.ok (Obj.cls i ms)) := by
  have h1 : beartype_object collab conf (Obj.cls i ms) none =
      beartype_object_fatal collab conf (Obj.cls i ms) none := by
    simp [beartype_object, hff]
  have h2 : (beartype_object_fatal collab conf (Obj.cls i ms) none).1 =
      Except.ok (Obj.cls i (ms.map (member_wrapped collab conf [Obj.cls i ms]))) := by
    rw [beartype_object_fatal, beartype_type]
    rw [show cls_stack_push none (Obj.cls i ms) = [Obj.cls i ms] from rfl]
    have := walk_all_ok collab conf i [Obj.cls i ms] hff ms [] hok
    simpa using this
  refine ⟨by rw [h1]; exact h2, fun hnone => ?_⟩
  rw [h1, h2]
  have hmap : ms.map (member_wrapped collab conf [Obj.cls i ms]) = ms := by
    have hfix : ∀ m ∈ ms, member_wrapped collab conf [Obj.cls i ms] m = m := by
      intro m hm
      simp [member_wrapped, hnone m hm]
    calc ms.map (member_wrapped collab conf [Obj.cls i ms])
        = ms.map id := List.map_congr_left hfix
      _ = ms := List.map_id ms
  rw [hmap]

/-- Witness for claim C2 on a concrete class with one instrumentable method
and one non-instrumentable data member. -/
theorem class_walk_all_success_witness :
    (⟨none⟩ : BeartypeConf).warning_cls_on_decorator_exception = none ∧
    (beartype_object collabOk ⟨none⟩ clsWit none).1 =
      Except.ok (Obj.cls 3 (clsWitMembers.map
        (member_wrapped collabOk ⟨none⟩ [clsWit]))) := by
  have hfm : beartype_object_fatal collabOk ⟨none⟩ (Obj.atom funcAtom)
      (some [clsWit]) = (Except.ok (Obj.atom wrappedAtom), []) := by
    simp [beartype_object_fatal, funcAtom, collabOk, liftWrap]
  refine ⟨rfl, ?_⟩
  have h := (class_walk_all_success collabOk ⟨none⟩ 3 clsWitMembers rfl ?_).1
  · exact h
  · intro m hm hbm
    simp only [clsWitMembers, List.mem_cons, List.mem_singleton] at hm
    rcases hm with rfl | hm
    · exact ⟨⟨Obj.atom wrappedAtom, [], hfm⟩, rfl⟩
    · rcases hm with rfl | hm
      · exact absurd hbm (by decide)
      · simp at hm

/-- Claim C7: when substituting a member binding fails with a `TypeError`
whose message matches the host-version-dependent immutable-type pattern, the
member is silently skipped and the walk continues with the next member;  a
substitution failure not matching the pattern is fatal and propagates
unchanged. -/
theorem immutable_substitution_failure (collab : Collab) (conf : BeartypeConf)
    (i : Nat) (done rest : List Mem) (nm : String) (v : Obj) (msg : String)
    (stack2 : List Obj) (w : Obj) (ws : Warnings)
    (hb : isBeartypeable v = true)
    (hr : member_step_result collab conf v stack2 = (Except.ok w, ws)) :
    (is_typeerror_attr_immutable collab.isPy310 msg = true →
      beartype_type_attrs collab conf i done ((nm, v, some msg) :: rest) stack2 =
        prependWs ws (beartype_type_attrs collab conf i
          (done ++ [(nm, mutatedInPlace v w, some msg)]) rest stack2)) ∧
    (is_typeerror_attr_immutable collab.isPy310 msg = false →
      beartype_type_attrs collab conf i done ((nm, v, some msg) :: rest) stack2 =
        (Except.error (⟨false, msg⟩,
          Obj.cls i (done ++ (nm, mutatedInPlace v w, some msg) :: rest)), ws)) := by
  have hr2 : (if conf.warning_cls_on_decorator_exception.isSome then
      nonfatal_boundary conf (beartype_object_fatal collab conf v (some stack2))
     else beartype_object_fatal collab conf v (some stack2)) = (Except.ok w, ws) := hr
  constructor
  · intro hp
    rw [beartype_type_attrs]
    simp only [hb, if_true, hr2, member_substitute, hp, prependWs]
  · intro hp
    rw [beartype_type_attrs]
    simp only [hb, if_true, hr2, member_substitute, hp, Bool.false_eq_true,
      if_false]

/-- Witness for claim C7 at a concrete member whose `setattr` raises the
Python-3.10 immutable-type message. -/
theorem immutable_substitution_failure_witness :
    isBeartypeable (Obj.atom funcAtom) = true ∧
    is_typeerror_attr_immutable collabOk.isPy310 immutMsg = true ∧
    member_step_result collabOk ⟨none⟩ (Obj.atom funcAtom) [] =
      (Except.ok (Obj.atom wrappedAtom), []) ∧
    beartype_type_attrs collabOk ⟨none⟩ 0 []
        [("a", Obj.atom funcAtom, some immutMsg)] [] =
      prependWs [] (beartype_type_attrs collabOk ⟨none⟩ 0
        [("a", mutatedInPlace (Obj.atom funcAtom) (Obj.atom wrappedAtom),
          some immutMsg)] [] []) := by
  have hmsr : member_step_result collabOk ⟨none⟩ (Obj.atom funcAtom) [] =
      (Except.ok (Obj.atom wrappedAtom), []) := by
    simp [member_step_result, beartype_object_fatal, funcAtom, collabOk, liftWrap]
  refine ⟨by decide, by decide, hmsr, ?_⟩
  exact (immutable_substitution_failure collabOk ⟨none⟩ 0 [] [] "a"
    (Obj.atom funcAtom) immutMsg [] (Obj.atom wrappedAtom) []
    (by decide) hmsr).1 (by decide)

theorem dotted_chars_not_identifier (l : List Char) (h : ('.') ∈ l) :
    charsIdentifier l = false := by
  rcases l with _ | ⟨c, cs⟩
  · simp at h
  · rw [charsIdentifier]
    rcases List.mem_cons.mp h with rfl | hmem
    · simp [show isIdentStart ('.') = false from by decide]
    · rcases hall : cs.all isIdentChar with _ | _
      · simp [hall]
      · have h2 := List.all_eq_true.mp hall ('.') hmem
        exact absurd h2 (by decide)

theorem dotted_name_not_identifier (s : String) (h : ('.') ∈ s.data) :
    str_isidentifier s = false := by
  rw [str_isidentifier]
  exact dotted_chars_not_identifier s.data h

/-- Claim C9: `make_type` called with an empty string, a non-identifier
string, or a qualified (dotted) name raises the supplied error kind with a
message identifying the offending value; called with a valid unqualified
identifier and no bases, scope, module or documentation it returns a newly
synthesized class of that name whose only base is the universal root class
and which is otherwise empty. -/
theorem make_type_validation (s t u : String) (k : Nat)
    (hs : str_isidentifier s = false)
    (ht : ('.') ∈ t.data)
    (hu : str_isidentifier u = true) :
    make_type "" none none none none k =
      Except.error (k, "Class name " ++ pyRepr "" ++ " invalid.") ∧
    make_type s none none none none k =
      Except.error (k, "Class name " ++ pyRepr s ++ " invalid.") ∧
    make_type t none none none none k =
      Except.error (k, "Class name " ++ pyRepr t ++ " invalid.") ∧
    make_type u none none none none k =
      Except.ok (PyClass.make u [PyClass.object] [] none none) := by
  refine ⟨?_, ?_, ?_, ?_⟩
  · simp [make_type, show str_isidentifier "" = false from by decide]
  · simp [make_type, hs]
  · simp [make_type, dotted_name_not_identifier t ht]
  · simp [make_type, hu, type_new]

/-- Witness for claim C9 at the concrete names "1bad", "a.b" and "Valid". -/
theorem make_type_validation_witness :
    str_isidentifier "1bad" = false ∧ ('.') ∈ "a.b".data ∧
    str_isidentifier "Valid" = true ∧
    make_type "Valid" none none none none 5 =
      Except.ok (PyClass.make "Valid" [PyClass.object] [] none none) := by
  refine ⟨by decide, by decide, by decide, ?_⟩
  exact (make_type_validation "1bad" "a.b" "Valid" 5 (by decide) (by decide)
    (by decide)).2.2.2

theorem clsA_inner_eval : beartype_object_fatal stackProbe ⟨none⟩
    (Obj.atom funcAtom) (some [clsA, clsB]) =
    (Except.ok (Obj.atom (probeAtom "<1><2>")), []) := by
  have henc : encodeStack (some [clsA, clsB]) = "<1><2>" := by decide
  rw [beartype_object_fatal]
  simp only [funcAtom, stackProbe, liftWrap, henc]
  simp [henc]

theorem clsB_eval : beartype_object_fatal stackProbe ⟨none⟩ clsB (some [clsA]) =
    (Except.ok (Obj.cls 2 [("m", Obj.atom (probeAtom "<1><2>"), none)]), []) := by
  have hb : isBeartypeable (Obj.atom funcAtom) = true := by decide
  rw [clsB, beartype_object_fatal, beartype_type]
  rw [show cls_stack_push (some [clsA]) (Obj.cls 2 [("m", Obj.atom funcAtom, none)]) =
    [clsA, clsB] from rfl]
  rw [beartype_type_attrs]
  simp only [hb, if_true, show (⟨none⟩ : BeartypeConf).warning_cls_on_decorator_exception.isSome
    = false from rfl, Bool.false_eq_true, if_false, clsA_inner_eval,
    member_substitute, prependWs, List.nil_append]
  rw [beartype_type_attrs]

theorem clsA_eval : beartype_object stackProbe ⟨none⟩ clsA none =
    (Except.ok (Obj.cls 1 [("B",
      Obj.cls 2 [("m", Obj.atom (probeAtom "<1><2>"), none)], none)]), []) := by
  have hb : isBeartypeable clsB = true := by rw [clsB]; rfl
  rw [beartype_object.eq_def]
  simp only [show (⟨none⟩ : BeartypeConf).warning_cls_on_decorator_exception.isNone
    = true from rfl, if_true]
  rw [clsA, beartype_object_fatal, beartype_type]
  rw [show cls_stack_push none (Obj.cls 1 [("B", clsB, none)]) = [clsA] from rfl]
  rw [beartype_type_attrs]
  simp only [hb, if_true, show (⟨none⟩ : BeartypeConf).warning_cls_on_decorator_exception.isSome
    = false from rfl, Bool.false_eq_true, if_false, clsB_eval,
    member_substitute, prependWs, List.nil_append]
  rw [beartype_type_attrs]

/-- Claim C6: on every recursive class walk the new enclosing-class stack is
the singleton of the current class when no stack is supplied and the supplied
stack with the current class appended (a fresh sequence) otherwise;
consequently, for a root class A (id 1) containing inner class B (id 2)
containing leaf member m, the stack passed while dispatching m is exactly
(A, B), as recorded by the stack-probing collaborators. -/
theorem enclosing_stack_invariant :
    (∀ o, cls_stack_push none o = [o]) ∧
    (∀ s o, cls_stack_push (some s) o = s ++ [o]) ∧
    (∀ collab conf i ms s,
      beartype_object_fatal collab conf (Obj.cls i ms) s =
        beartype_type_attrs collab conf i [] ms
          (cls_stack_push s (Obj.cls i ms))) ∧
    beartype_object stackProbe ⟨none⟩ clsA none =
      (Except.ok (Obj.cls 1 [("B",
        Obj.cls 2 [("m", Obj.atom (probeAtom "<1><2>"), none)], none)]), []) := by
  refine ⟨fun o => rfl, fun s o => rfl, fun collab conf i ms s => ?_, clsA_eval⟩
  rw [beartype_object_fatal, beartype_type]

theorem member_substitute_inr_entry (p : Bool) (i : Nat) (done : List Mem)
    (nm : String) (v : Obj) (se : Option String) (rest : List Mem)
    (r : DecorResult) (c : Mem × Warnings)
    (h : member_substitute p i done nm v se rest r = Sum.inr c) :
    c.1.1 = nm ∧ c.1.2.2 = se := by
  unfold member_substitute at h
  split at h
  next e vMut ws => simp at h
  next w ws =>
    rcases se with _ | msg
    · simp only [Sum.inr.injEq] at h
      rw [← h]
      exact ⟨rfl, rfl⟩
    · by_cases hp : is_typeerror_attr_immutable p msg
      · simp only [hp, if_true, Sum.inr.injEq] at h
        rw [← h]
        exact ⟨rfl, rfl⟩
      · simp [hp] at h

theorem stateOf_prependWs (ws : Warnings) (r : DecorResult) :
    stateOf (prependWs ws r) = stateOf r := rfl

theorem walk_members_shape (collab : Collab) (conf : BeartypeConf) (i : Nat) :
    ∀ todo done stack2,
      ∃ todo2, stateOf (beartype_type_attrs collab conf i done todo stack2) =
          Obj.cls i (done ++ todo2) ∧
        List.Forall₂ untouchedOk todo todo2 := by
  intro todo
  induction todo with
  | nil =>
    intro done stack2
    refine ⟨[], ?_, List.Forall₂.nil⟩
    rw [beartype_type_attrs]
    simp [stateOf]
  | cons hd rest ih =>
    intro done stack2
    obtain ⟨nm, v, se⟩ := hd
    by_cases hb : isBeartypeable v
    · rcases hms : member_substitute collab.isPy310 i done nm v se rest
          (if conf.warning_cls_on_decorator_exception.isSome then
            nonfatal_boundary conf
              (beartype_object_fatal collab conf v (some stack2))
           else beartype_object_fatal collab conf v (some stack2)) with r2 | c
      · obtain ⟨e, x, ws, hr2⟩ := member_substitute_inl_shape _ _ _ _ _ _ _ _ _ hms
        refine ⟨(nm, x, se) :: rest, ?_, ?_⟩
        · rw [beartype_type_attrs]
          simp only [hb, if_true, hms, hr2, stateOf]
        · refine List.Forall₂.cons ⟨rfl, fun hbf => ?_⟩
            (List.forall₂_same.mpr (fun m _ => ⟨rfl, fun _ => rfl⟩))
          rw [hb] at hbf
          exact absurd hbf (by simp)
      · obtain ⟨hc1, hc2⟩ := member_substitute_inr_entry _ _ _ _ _ _ _ _ _ hms
        obtain ⟨todo2, hst, hfa⟩ := ih (done ++ [c.1]) stack2
        refine ⟨c.1 :: todo2, ?_, ?_⟩
        · rw [beartype_type_attrs]
          simp only [hb, if_true, hms, stateOf_prependWs]
          rw [hst]
          simp
        · refine List.Forall₂.cons ⟨hc1, fun hbf => ?_⟩ hfa
          rw [hb] at hbf
          exact absurd hbf (by simp)
    · obtain ⟨todo2, hst, hfa⟩ := ih (done ++ [(nm, v, se)]) stack2
      refine ⟨(nm, v, se) :: todo2, ?_, ?_⟩
      · rw [beartype_type_attrs]
        simp only [hb, Bool.false_eq_true, if_false]
        rw [hst]
        simp
      · exact List.Forall₂.cons ⟨rfl, fun _ => rfl⟩ hfa

theorem forall2_untouched_names {l l2 : List Mem}
    (h : List.Forall₂ untouchedOk l l2) : memberNames l2 = memberNames l := by
  induction h with
  | nil => rfl
  | cons h1 _ ih =>
    simp only [memberNames, List.map_cons] at ih ⊢
    rw [h1.1]
    exact congrArg _ ih

/-- Claim C10: the class walk preserves the class's member-name table — on
both the success and the error channel the resulting class state has exactly
the original member names in order, only beartypeable members are dispatched,
each replacement is bound under the name it was read from, and every
non-beartypeable member is left entirely untouched. -/
theorem class_walk_preserves_member_table (collab : Collab) (conf : BeartypeConf)
    (i : Nat) (ms : List Mem) (s : Option (List Obj)) :
    ∃ ms2, stateOf (beartype_object_fatal collab conf (Obj.cls i ms) s) =
        Obj.cls i ms2 ∧
      memberNames ms2 = memberNames ms ∧
      List.Forall₂ untouchedOk ms ms2 := by
  obtain ⟨ms2, hst, hfa⟩ := walk_members_shape collab conf i ms []
    (cls_stack_push s (Obj.cls i ms))
  refine ⟨ms2, ?_, forall2_untouched_names hfa, hfa⟩
  rw [beartype_object_fatal, beartype_type]
  simpa using hst
